import Mathlib

/-!
Shallow embedding of `src/server.py` (a FastAPI gateway in front of the
oandapyV20 broker client) and proofs about its request/response contract.

Modelling conventions:
* Python JSON values that can appear in a request body are modelled by `PyVal`
  (JSON null / bool / integer / string).  Request bodies (`Dict[str, Any]`)
  are association lists `PyDict`.
* The broker client is an oracle `BrokerOutcome ρ`: it either returns a
  response of type `ρ`, raises `V20Error(msg)`, or raises some other
  exception with message `msg`.
* Exceptions are `PyExc`: `V20Error`, FastAPI `HTTPException(status, detail)`
  (whose `str` is "status: detail", as in starlette), or any other exception
  carrying its `str`.  A handler body is an `Except PyExc` computation.
* Each endpoint's `try/except V20Error/except Exception` block is `tryWrap`;
  the framework layer (FastAPI's HTTPException handler plus the registered
  global exception handler) is `dispatch`.
* Every broker-calling endpoint returns a pair: the first component records
  the payload sent to the broker (`none` when control never reached the
  broker call), the second is the HTTP response.
* `float` arithmetic on decimal price strings is embedded exactly over `ℚ`.
-/

/-- A JSON value as deserialized by FastAPI into `Dict[str, Any]`. -/
inductive PyVal where
  | none : PyVal
  | bool (b : Bool) : PyVal
  | int (n : Int) : PyVal
  | str (s : String) : PyVal
deriving Repr, DecidableEq

/-- A Python dict with string keys, as an association list (first binding wins,
matching dict lookup on the modelled requests, which have distinct keys). -/
abbrev PyDict := List (String × PyVal)

/-- `d[k]` lookup returning `none` when the key is absent (`d.get(k)`). -/
def PyDict.lookup (d : PyDict) (k : String) : Option PyVal :=
  match d with
  | [] => Option.none
  | (k2, v) :: rest => if k2 = k then some v else PyDict.lookup rest k

/-- Python `k in d`. -/
def PyDict.hasKey (d : PyDict) (k : String) : Bool :=
  (d.lookup k).isSome

/-- Python truthiness of a `PyVal` (`bool(v)`). -/
def pyTruthy : PyVal → Bool
  | PyVal.none => false
  | PyVal.bool b => b
  | PyVal.int n => n != 0
  | PyVal.str s => s ≠ ""

/-- Python `str(v)` for the values a request body can hold. -/
def pyStr : PyVal → String
  | PyVal.none => "None"
  | PyVal.bool b => if b then "True" else "False"
  | PyVal.int n => toString n
  | PyVal.str s => s

/-- Exceptions that can be raised while handling a request. -/
inductive PyExc where
  | v20Error (msg : String) : PyExc
  | httpExc (status : Nat) (detail : String) : PyExc
  | otherExc (msg : String) : PyExc
deriving Repr, DecidableEq

/-- Python `str(e)` of an exception.  `str` of a starlette `HTTPException`
is "status_code: detail"; `str` of a `V20Error` is its message. -/
def excStr : PyExc → String
  | PyExc.v20Error m => m
  | PyExc.httpExc s d => toString s ++ ": " ++ d
  | PyExc.otherExc m => m

/-- Outcome of the single broker-client call an endpoint makes:
a structured response, a raised `V20Error`, or any other raised exception. -/
inductive BrokerOutcome (ρ : Type) where
  | ok (resp : ρ) : BrokerOutcome ρ
  | v20 (msg : String) : BrokerOutcome ρ
  | exn (msg : String) : BrokerOutcome ρ

/-- `oanda_client.request r` as an `Except` computation. -/
def runBroker {ρ : Type} : BrokerOutcome ρ → Except PyExc ρ
  | BrokerOutcome.ok r => Except.ok r
  | BrokerOutcome.v20 m => Except.error (PyExc.v20Error m)
  | BrokerOutcome.exn m => Except.error (PyExc.otherExc m)

/-- Body of the `JSONResponse` built by the registered global handler. -/
structure JsonOut where
  status_code : Nat
  success : Bool
  error : String
  detail : String
deriving Repr, DecidableEq

/-- `global_exception_handler`: any exception escaping an endpoint that the
framework does not handle itself becomes a 500 `JSONResponse`. -/
def global_exception_handler (exc : PyExc) : JsonOut :=
  { status_code := 500, success := false,
    error := "Internal server error", detail := excStr exc }

/-- The HTTP response the caller observes. -/
inductive Response (β : Type) where
  /-- 200 with the handler's returned body. -/
  | ok (body : β) : Response β
  /-- FastAPI's own `HTTPException` handler: the exception's status with a
  `detail` body. -/
  | detailErr (status : Nat) (detail : String) : Response β
  /-- the registered global exception handler (always a 500 shape). -/
  | fallback (body : JsonOut) : Response β
deriving Repr, DecidableEq

/-- HTTP status code of a response. -/
def Response.status {β : Type} : Response β → Nat
  | Response.ok _ => 200
  | Response.detailErr s _ => s
  | Response.fallback j => j.status_code

/-- The `try/except V20Error/except Exception` block shared by every
broker-calling endpoint: a `V20Error` is re-raised as
`HTTPException(400, "Oanda API error: " + str(e))`, any other exception —
including an `HTTPException` raised inside the `try` body — as
`HTTPException(500, "Internal error: " + str(e))`. -/
def tryWrap {β : Type} : Except PyExc β → Except PyExc β
  | Except.ok b => Except.ok b
  | Except.error (PyExc.v20Error m) =>
      Except.error (PyExc.httpExc 400 ("Oanda API error: " ++ m))
  | Except.error e =>
      Except.error (PyExc.httpExc 500 ("Internal error: " ++ excStr e))

/-- The framework layer: a returned body is a 200, an escaping
`HTTPException` is rendered by FastAPI's handler, and anything else reaches
`global_exception_handler`. -/
def dispatch {β : Type} : Except PyExc β → Response β
  | Except.ok b => Response.ok b
  | Except.error (PyExc.httpExc s d) => Response.detailErr s d
  | Except.error e => Response.fallback (global_exception_handler e)

/-- Shape of every broker-calling endpoint: build the broker request
(`build`, which may raise), call the broker once, post-process its response
(`post`, which may raise), all inside `tryWrap` and `dispatch`.  The first
component records the payload sent to the broker (`none` when the broker was
never invoked). -/
def runEndpoint {π ρ β : Type} (build : Except PyExc π) (br : BrokerOutcome ρ)
    (post : π → ρ → Except PyExc β) : Option π × Response β :=
  match build with
  | Except.error e => (Option.none, dispatch (tryWrap (Except.error e)))
  | Except.ok payload =>
      (some payload,
        dispatch (tryWrap (match runBroker br with
          | Except.error e => Except.error e
          | Except.ok resp => post payload resp)))

/-- The `{"success": True, "data": ...}` envelope. -/
structure Envelope (ρ : Type) where
  success : Bool
  data : ρ
deriving Repr, DecidableEq

/-- The `order_request[k]` subscript, used only after `k in order_request`
was checked, so the `PyVal.none` default branch is unreachable there. -/
def item (req : PyDict) (k : String) : PyVal :=
  (req.lookup k).getD PyVal.none

/-- The `for field in required_fields: if field not in order_request: raise
HTTPException(400, ...)` loop. -/
def checkRequired (req : PyDict) : List String → Except PyExc Unit
  | [] => Except.ok ()
  | f :: rest =>
      if req.hasKey f then checkRequired req rest
      else Except.error (PyExc.httpExc 400 ("Missing required field: " ++ f))

/-- `if order_request.get(k): {"price": str(order_request[k])}` — the
optional stop-loss / take-profit attachment: key absent or value falsy omits
the field, a truthy value is forwarded as a price string. -/
def optPriceField (req : PyDict) (k : String) : Option String :=
  match req.lookup k with
  | Option.none => Option.none
  | some v => if pyTruthy v then some (pyStr v) else Option.none

/-- The inner `"order"` object sent to `orders.OrderCreate`.  `Option.none`
in an `Option` field means the key is absent from the dict (the code never
stores a null in these fields). -/
structure OrderData where
  type : String
  instrument : PyVal
  units : String
  price : Option String
  stopLossOnFill : Option String
  takeProfitOnFill : Option String
deriving Repr, DecidableEq

/-- Validation and payload construction of `place_market_order` (the part of
the handler before the broker call). -/
def marketBody (req : PyDict) : Except PyExc OrderData :=
  match checkRequired req ["instrument", "units"] with
  | Except.error e => Except.error e
  | Except.ok _ =>
      Except.ok {
        type := "MARKET",
        instrument := item req "instrument",
        units := pyStr (item req "units"),
        price := Option.none,
        stopLossOnFill := optPriceField req "stop_loss",
        takeProfitOnFill := optPriceField req "take_profit" }

/-- Validation and payload construction of `place_limit_order`. -/
def limitBody (req : PyDict) : Except PyExc OrderData :=
  match checkRequired req ["instrument", "units", "price"] with
  | Except.error e => Except.error e
  | Except.ok _ =>
      Except.ok {
        type := "LIMIT",
        instrument := item req "instrument",
        units := pyStr (item req "units"),
        price := some (pyStr (item req "price")),
        stopLossOnFill := optPriceField req "stop_loss",
        takeProfitOnFill := optPriceField req "take_profit" }

/-- `POST /order/market`.  `ρ` is the broker's opaque order-creation
response, re-emitted under the success envelope. -/
def place_market_order {ρ : Type} (req : PyDict) (br : BrokerOutcome ρ) :
    Option OrderData × Response (Envelope ρ) :=
  runEndpoint (marketBody req) br
    (fun _ resp => Except.ok { success := true, data := resp })

/-- `POST /order/limit`. -/
def place_limit_order {ρ : Type} (req : PyDict) (br : BrokerOutcome ρ) :
    Option OrderData × Response (Envelope ρ) :=
  runEndpoint (limitBody req) br
    (fun _ resp => Except.ok { success := true, data := resp })

/-- Numeric value of a list of decimal digit characters. -/
def digitsNat (cs : List Char) : Nat :=
  cs.foldl (fun a c => a * 10 + (c.toNat - 48)) 0

/-- Whether every character is a decimal digit. -/
def allDigits (cs : List Char) : Bool :=
  cs.all Char.isDigit

/-- Surrounding-whitespace stripping (`s.strip()` as `int`/`float` do). -/
def stripSpaces (cs : List Char) : List Char :=
  ((cs.dropWhile Char.isWhitespace).reverse.dropWhile Char.isWhitespace).reverse

/-- Python `int(s)` on a string: optional surrounding whitespace, optional
sign, then at least one decimal digit; anything else raises `ValueError`
(modelled as `Option.none`). -/
def pyInt (s : String) : Option Int :=
  let core : List Char → Option Int := fun cs =>
    if allDigits cs && !cs.isEmpty then some (Int.ofNat (digitsNat cs))
    else Option.none
  match stripSpaces s.toList with
  | '-' :: rest => (core rest).map (fun n => -n)
  | '+' :: rest => core rest
  | cs => core cs

/-- Splitting a character list at the `.` separators. -/
def splitDot : List Char → List (List Char)
  | [] => [[]]
  | c :: rest =>
      if c = '.' then [] :: splitDot rest
      else
        match splitDot rest with
        | [] => [[c]]
        | h :: t => (c :: h) :: t

/-- Python `float(s)` on a plain decimal string, embedded exactly over `ℚ`:
optional surrounding whitespace and sign, an integer part and an optional
fractional part with at least one digit in total; anything else raises
`ValueError` (modelled as `Option.none`). -/
def pyFloat (s : String) : Option ℚ :=
  let core : List Char → Option ℚ := fun cs =>
    match splitDot cs with
    | [as] =>
        if allDigits as && !as.isEmpty then some ((digitsNat as : ℚ))
        else Option.none
    | [as, bs] =>
        if allDigits as && allDigits bs && !(as.isEmpty && bs.isEmpty) then
          some ((digitsNat as : ℚ) + (digitsNat bs : ℚ) / ((10 : ℚ) ^ bs.length))
        else Option.none
    | _ => Option.none
  match stripSpaces s.toList with
  | '-' :: rest => (core rest).map (fun q => -q)
  | '+' :: rest => core rest
  | cs => core cs

/-- The close payload sent to `positions.PositionClose`; `Option.none` means
the key is absent from the dict. -/
structure CloseData where
  longUnits : Option String
  shortUnits : Option String
deriving Repr, DecidableEq

/-- Close-payload construction of `close_position`: `"ALL"` closes both
sides, otherwise `int(units)` decides the side — positive forwards the raw
`units` string as `longUnits`, non-positive sends `str(abs(int(units)))` as
`shortUnits`; a non-numeric string raises `ValueError` from `int`. -/
def closeData (units : String) : Except PyExc CloseData :=
  if units = "ALL" then
    Except.ok { longUnits := some "ALL", shortUnits := some "ALL" }
  else
    match pyInt units with
    | Option.none =>
        Except.error (PyExc.otherExc
          ("invalid literal for int() with base 10: " ++ units))
    | some n =>
        if 0 < n then Except.ok { longUnits := some units, shortUnits := Option.none }
        else Except.ok { longUnits := Option.none,
                         shortUnits := some (toString n.natAbs) }

/-- `POST /position/close/{instrument}`.  The recorded broker request pairs
the instrument passed to `positions.PositionClose` with the close payload.
The route's `units` query parameter defaults to `"ALL"` (see
`close_position_default`). -/
def close_position {ρ : Type} (instrument : String) (units : String)
    (br : BrokerOutcome ρ) :
    Option (String × CloseData) × Response (Envelope ρ) :=
  runEndpoint (Except.map (fun cd => (instrument, cd)) (closeData units)) br
    (fun _ resp => Except.ok { success := true, data := resp })

/-- `POST /position/close/{instrument}` with the `units` query parameter
omitted: FastAPI fills the declared default `"ALL"`. -/
def close_position_default {ρ : Type} (instrument : String)
    (br : BrokerOutcome ρ) :
    Option (String × CloseData) × Response (Envelope ρ) :=
  close_position instrument "ALL" br

/-- The params dict sent to `instruments.InstrumentsCandles`. -/
structure CandleParams where
  granularity : String
  count : Int
deriving Repr, DecidableEq

/-- Broker response to a candles request: `r.response.get('candles', [])`,
candle rows kept opaque. -/
structure CandlesResp where
  candles : Option (List PyVal)

/-- The reshaped `data` object of `GET /historical/{instrument}`. -/
structure HistData where
  instrument : String
  granularity : String
  candles : List PyVal
  count : Nat

/-- `GET /historical/{instrument}`: the broker is called with the requested
granularity and `min(count, 5000)`. -/
def get_historical_data (instrument : String) (granularity : String)
    (count : Int) (br : BrokerOutcome CandlesResp) :
    Option CandleParams × Response (Envelope HistData) :=
  runEndpoint
    (Except.ok { granularity := granularity, count := min count 5000 })
    br
    (fun _ resp =>
      let cs := resp.candles.getD []
      Except.ok { success := true,
                  data := { instrument := instrument,
                            granularity := granularity,
                            candles := cs, count := cs.length } })

/-- `GET /historical/{instrument}` with both query parameters omitted:
FastAPI fills the declared defaults `granularity="D"`, `count=100`. -/
def get_historical_data_defaults (instrument : String)
    (br : BrokerOutcome CandlesResp) :
    Option CandleParams × Response (Envelope HistData) :=
  get_historical_data instrument "D" 100 br

/-- One element of a `bids`/`asks` list; `price` is `Option.none` when the
`'price'` key is absent. -/
structure PriceEntry where
  price : Option String
deriving Repr, DecidableEq

/-- One element of the `prices` list of a pricing response; a field is
`Option.none` when its key is absent. -/
structure PriceRow where
  bids : Option (List PriceEntry)
  asks : Option (List PriceEntry)
  time : Option String
deriving Repr, DecidableEq

/-- Broker response to `pricing.PricingInfo`. -/
structure PricingResp where
  prices : Option (List PriceRow)
deriving Repr, DecidableEq

/-- `price_data.get('bids', [{}])[0]`: an absent key defaults to `[{}]`
whose first element is the empty dict, a present but empty list raises
`IndexError`, otherwise the first element. -/
def firstEntry (l : Option (List PriceEntry)) : Except PyExc PriceEntry :=
  match l with
  | Option.none => Except.ok { price := Option.none }
  | some [] => Except.error (PyExc.otherExc "list index out of range")
  | some (e :: _) => Except.ok e

/-- `entry.get('price', 'N/A')` for the displayed bid/ask. -/
def displayPrice (e : PriceEntry) : String :=
  e.price.getD "N/A"

/-- `float(entry.get('price', 0))` used for the spread: an absent price
defaults to `0`, a present price string is parsed by `float`, raising
`ValueError` when unparsable. -/
def numericPrice (e : PriceEntry) : Except PyExc ℚ :=
  match e.price with
  | Option.none => Except.ok 0
  | some s =>
      match pyFloat s with
      | some q => Except.ok q
      | Option.none =>
          Except.error (PyExc.otherExc
            ("could not convert string to float: " ++ s))

/-- The reshaped `data` object of `GET /price/{instrument}`. -/
structure PriceData where
  instrument : String
  bid : String
  ask : String
  spread : ℚ
  time : Option String
deriving Repr, DecidableEq

/-- Response shaping of `get_current_price` after the broker call: an empty
`prices` list raises `HTTPException(404)`, otherwise the first row's best
bid/ask are reported with `spread = float(ask) - float(bid)`. -/
def priceBody (instrument : String) (resp : PricingResp) :
    Except PyExc (Envelope PriceData) :=
  match resp.prices.getD [] with
  | [] => Except.error (PyExc.httpExc 404
            ("No price data found for " ++ instrument))
  | row :: _ =>
      match firstEntry row.bids with
      | Except.error e => Except.error e
      | Except.ok b =>
          match firstEntry row.asks with
          | Except.error e => Except.error e
          | Except.ok a =>
              match numericPrice a with
              | Except.error e => Except.error e
              | Except.ok aq =>
                  match numericPrice b with
                  | Except.error e => Except.error e
                  | Except.ok bq =>
                      Except.ok { success := true,
                                  data := { instrument := instrument,
                                            bid := displayPrice b,
                                            ask := displayPrice a,
                                            spread := aq - bq,
                                            time := row.time } }

/-- `GET /price/{instrument}`.  The recorded broker payload is the
`{"instruments": instrument}` params value. -/
def get_current_price (instrument : String) (br : BrokerOutcome PricingResp) :
    Option String × Response (Envelope PriceData) :=
  runEndpoint (Except.ok instrument) br (fun i resp => priceBody i resp)

/-- The `'account'` object of an `accounts.AccountDetails` response,
restricted to the fields the handler reads (a well-formed broker response;
missing keys would be a `KeyError`, outside these claims). -/
structure AccountInfo where
  id : String
  currency : String
  balance : String
  nav : String
  unrealizedPL : String
  marginUsed : String
  marginAvailable : String
  marginRate : String
  openTradeCount : Int
  openPositionCount : Int
  pendingOrderCount : Int
deriving Repr, DecidableEq

/-- Broker response to `accounts.AccountDetails`. -/
structure AccountResp where
  account : AccountInfo
deriving Repr, DecidableEq

/-- The reshaped `data` object of `GET /account`. -/
structure AccountData where
  id : String
  currency : String
  balance : String
  nav : String
  unrealized_pl : String
  margin_used : String
  margin_available : String
  margin_rate : String
  open_trade_count : Int
  open_position_count : Int
  pending_order_count : Int
deriving Repr, DecidableEq

/-- `GET /account`: reshapes the account object field by field. -/
def get_account_info (br : BrokerOutcome AccountResp) :
    Option Unit × Response (Envelope AccountData) :=
  runEndpoint (Except.ok ()) br
    (fun _ resp =>
      let a := resp.account
      Except.ok { success := true,
                  data := { id := a.id, currency := a.currency,
                            balance := a.balance, nav := a.nav,
                            unrealized_pl := a.unrealizedPL,
                            margin_used := a.marginUsed,
                            margin_available := a.marginAvailable,
                            margin_rate := a.marginRate,
                            open_trade_count := a.openTradeCount,
                            open_position_count := a.openPositionCount,
                            pending_order_count := a.pendingOrderCount } })

/-- A success body carrying a list plus its length (`/positions`,
`/orders`). -/
structure ListBody where
  success : Bool
  data : List PyVal
  count : Nat
deriving Repr, DecidableEq

/-- Broker response to `positions.OpenPositions`:
`r.response.get('positions', [])`, rows opaque. -/
structure PositionsResp where
  positions : Option (List PyVal)

/-- `GET /positions`. -/
def get_positions (br : BrokerOutcome PositionsResp) :
    Option Unit × Response ListBody :=
  runEndpoint (Except.ok ()) br
    (fun _ resp =>
      let ps := resp.positions.getD []
      Except.ok { success := true, data := ps, count := ps.length })

/-- Broker response to `orders.OrderList`: `r.response.get('orders', [])`,
rows opaque. -/
structure OrdersResp where
  orders : Option (List PyVal)

/-- `GET /orders`. -/
def get_orders (br : BrokerOutcome OrdersResp) :
    Option Unit × Response ListBody :=
  runEndpoint (Except.ok ()) br
    (fun _ resp =>
      let os := resp.orders.getD []
      Except.ok { success := true, data := os, count := os.length })

/-- `DELETE /order/{order_id}`: the recorded broker payload is the order id
passed to `orders.OrderCancel`. -/
def cancel_order {ρ : Type} (order_id : String) (br : BrokerOutcome ρ) :
    Option String × Response (Envelope ρ) :=
  runEndpoint (Except.ok order_id) br
    (fun _ resp => Except.ok { success := true, data := resp })

/-- `GET /health`: the broker probe is wrapped in a bare
`try/except Exception` that returns an unhealthy body instead of raising, so
every outcome — including a `V20Error`, which is also an `Exception` — is a
200. -/
def health_check {ρ : Type} (account_id environment : String)
    (br : BrokerOutcome ρ) : Response PyDict :=
  match br with
  | BrokerOutcome.ok _ =>
      Response.ok [("status", PyVal.str "healthy"),
                   ("oanda_connection", PyVal.str "ok"),
                   ("account_id", PyVal.str account_id),
                   ("environment", PyVal.str environment)]
  | BrokerOutcome.v20 m =>
      Response.ok [("status", PyVal.str "unhealthy"),
                   ("error", PyVal.str m),
                   ("oanda_connection", PyVal.str "failed")]
  | BrokerOutcome.exn m =>
      Response.ok [("status", PyVal.str "unhealthy"),
                   ("error", PyVal.str m),
                   ("oanda_connection", PyVal.str "failed")]

-- Sanity checks of the embedding on concrete inputs.
example :
    marketBody [("instrument", PyVal.str "EUR_USD"), ("units", PyVal.int 100)] =
      Except.ok { type := "MARKET", instrument := PyVal.str "EUR_USD",
                  units := "100", price := Option.none,
                  stopLossOnFill := Option.none,
                  takeProfitOnFill := Option.none } := by rfl

example :
    (place_market_order [("units", PyVal.int 100)]
        (BrokerOutcome.ok ())).2 =
      Response.detailErr 500
        "Internal error: 400: Missing required field: instrument" := by rfl

example : pyInt "500" = some 500 := by rfl
example : pyInt "-500" = some (-500) := by rfl
example : pyInt "abc" = Option.none := by rfl
example : pyInt "ALL" = Option.none := by rfl
example : pyFloat "1.1002" = some (11002 / 10000 : ℚ) := by
  have h : pyFloat "1.1002" =
      some ((digitsNat ['1'] : ℚ) +
        (digitsNat ['1', '0', '0', '2'] : ℚ) / (10 : ℚ) ^ (4 : ℕ)) := rfl
  have h1 : digitsNat ['1'] = 1 := rfl
  have h2 : digitsNat ['1', '0', '0', '2'] = 1002 := rfl
  rw [h, h1, h2]
  norm_num

example :
    closeData "-500" =
      Except.ok { longUnits := Option.none, shortUnits := some "500" } := by rfl

/-! ## Helper lemmas about the shared endpoint shape -/

/-- The recorded broker payload of an endpoint run is exactly the
successfully built request (and `none` when building raised). -/
theorem runEndpoint_payload {π ρ β : Type} (build : Except PyExc π)
    (br : BrokerOutcome ρ) (post : π → ρ → Except PyExc β) :
    (runEndpoint build br post).1 = build.toOption := by
  cases build <;> rfl

/-- When the request was built and the broker raised `V20Error(m)`, the
response is a 400 wrapping the broker's message. -/
theorem runEndpoint_v20 {π ρ β : Type} (p : π) (build : Except PyExc π)
    (post : π → ρ → Except PyExc β) (m : String)
    (hb : build = Except.ok p) :
    (runEndpoint build (BrokerOutcome.v20 m) post).2 =
      Response.detailErr 400 ("Oanda API error: " ++ m) := by
  subst hb; rfl

/-- When the request was built and the broker raised any other exception,
the response is a 500 wrapping the exception's message. -/
theorem runEndpoint_exn {π ρ β : Type} (p : π) (build : Except PyExc π)
    (post : π → ρ → Except PyExc β) (m : String)
    (hb : build = Except.ok p) :
    (runEndpoint build (BrokerOutcome.exn m) post).2 =
      Response.detailErr 500 ("Internal error: " ++ m) := by
  subst hb; rfl

/-- A successfully built market payload is the record the handler
constructs. -/
theorem marketBody_ok (req : PyDict) (od : OrderData)
    (h : marketBody req = Except.ok od) :
    od = { type := "MARKET", instrument := item req "instrument",
           units := pyStr (item req "units"), price := Option.none,
           stopLossOnFill := optPriceField req "stop_loss",
           takeProfitOnFill := optPriceField req "take_profit" } := by
  unfold marketBody at h
  cases hc : checkRequired req ["instrument", "units"] with
  | error e => rw [hc] at h; exact Except.noConfusion h
  | ok u => rw [hc] at h; injection h with h2; exact h2.symm

/-- A successfully built limit payload is the record the handler
constructs. -/
theorem limitBody_ok (req : PyDict) (od : OrderData)
    (h : limitBody req = Except.ok od) :
    od = { type := "LIMIT", instrument := item req "instrument",
           units := pyStr (item req "units"),
           price := some (pyStr (item req "price")),
           stopLossOnFill := optPriceField req "stop_loss",
           takeProfitOnFill := optPriceField req "take_profit" } := by
  unfold limitBody at h
  cases hc : checkRequired req ["instrument", "units", "price"] with
  | error e => rw [hc] at h; exact Except.noConfusion h
  | ok u => rw [hc] at h; injection h with h2; exact h2.symm

/-- An `Except` whose `toOption` is `some` is an `ok`. -/
theorem ok_of_toOption {ε α : Type} (x : Except ε α) (a : α)
    (h : x.toOption = some a) : x = Except.ok a := by
  cases x with
  | error e => exact Option.noConfusion h
  | ok b => injection h with h2; rw [h2]

/-- The recorded market-order payload is the built request. -/
theorem place_market_order_payload (ρ : Type) (req : PyDict)
    (br : BrokerOutcome ρ) :
    (place_market_order req br).1 = (marketBody req).toOption :=
  runEndpoint_payload _ _ _

/-- The recorded limit-order payload is the built request. -/
theorem place_limit_order_payload (ρ : Type) (req : PyDict)
    (br : BrokerOutcome ρ) :
    (place_limit_order req br).1 = (limitBody req).toOption :=
  runEndpoint_payload _ _ _

/-! ## Claims -/

/-- Claim C1.  The claim says a missing `instrument`/`units` (and, for limit
orders, missing `price`) yields HTTP 400 and no broker call.  The broker
part holds, but the code is a slip: the `HTTPException(400, "Missing
required field: ...")` is raised inside the endpoint's own `try`, caught by
its `except Exception`, and re-raised as a 500 whose detail wraps the
intended 400 message.  This theorem evaluates the code at the failing
inputs. -/
theorem claim1_missing_field_becomes_500 :
    place_market_order [("units", PyVal.int 100)]
        (BrokerOutcome.ok ()) =
      (Option.none, Response.detailErr 500
        "Internal error: 400: Missing required field: instrument") ∧
    place_market_order [("instrument", PyVal.str "EUR_USD")]
        (BrokerOutcome.ok ()) =
      (Option.none, Response.detailErr 500
        "Internal error: 400: Missing required field: units") ∧
    place_limit_order
        [("instrument", PyVal.str "EUR_USD"), ("units", PyVal.int 100)]
        (BrokerOutcome.ok ()) =
      (Option.none, Response.detailErr 500
        "Internal error: 400: Missing required field: price") :=
  ⟨rfl, rfl, rfl⟩

/-- Claim C3.  The close payload sent to the broker: `units = "ALL"` closes
both sides; a string parsing to a positive integer is forwarded verbatim as
`longUnits`; a string parsing to a negative integer sends its absolute value
(re-rendered as a string) as `shortUnits`.  The payload is recorded whatever
the broker outcome is. -/
theorem claim3_close_payload (ρ : Type) (instr s t : String) (n k : Int)
    (br1 br2 br3 : BrokerOutcome ρ)
    (hs : pyInt s = some n) (hn : 0 < n)
    (ht : pyInt t = some k) (hk : k < 0) :
    (close_position instr "ALL" br1).1 =
      some (instr, { longUnits := some "ALL", shortUnits := some "ALL" }) ∧
    (close_position instr s br2).1 =
      some (instr, { longUnits := some s, shortUnits := Option.none }) ∧
    (close_position instr t br3).1 =
      some (instr,
        { longUnits := Option.none, shortUnits := some (toString k.natAbs) }) := by
  have hse : s ≠ "ALL" := by
    intro hcon
    rw [hcon, show pyInt "ALL" = (Option.none : Option Int) from rfl] at hs
    exact Option.noConfusion hs
  have hte : t ≠ "ALL" := by
    intro hcon
    rw [hcon, show pyInt "ALL" = (Option.none : Option Int) from rfl] at ht
    exact Option.noConfusion ht
  have hcp : closeData s =
      Except.ok { longUnits := some s, shortUnits := Option.none } := by
    unfold closeData
    rw [if_neg hse, hs]
    exact if_pos hn
  have hcn : closeData t =
      Except.ok { longUnits := Option.none,
                  shortUnits := some (toString k.natAbs) } := by
    unfold closeData
    rw [if_neg hte, ht]
    exact if_neg (by omega : ¬ (0 < k))
  refine ⟨rfl, ?hpos, ?hneg⟩
  · unfold close_position
    rw [runEndpoint_payload, hcp]
    rfl
  · unfold close_position
    rw [runEndpoint_payload, hcn]
    rfl

/-- Witness for C3 at `units = "500"` and `units = "-500"`. -/
theorem claim3_witness :
    (close_position "EUR_USD" "500"
        (BrokerOutcome.ok () : BrokerOutcome Unit)).1 =
      some ("EUR_USD", { longUnits := some "500", shortUnits := Option.none }) ∧
    (close_position "EUR_USD" "-500"
        (BrokerOutcome.ok () : BrokerOutcome Unit)).1 =
      some ("EUR_USD", { longUnits := Option.none, shortUnits := some "500" }) := by
  have h := claim3_close_payload Unit "EUR_USD" "500" "-500" 500 (-500)
    (BrokerOutcome.ok ()) (BrokerOutcome.ok ()) (BrokerOutcome.ok ())
    rfl (by decide) rfl (by decide)
  exact ⟨h.2.1, h.2.2⟩

/-- Claim C4.  The claim says an empty broker price list yields HTTP 404.
The code is a slip: the `HTTPException(404, "No price data found for ...")`
is raised inside the endpoint's own `try`, caught by its
`except Exception`, and re-raised as a 500 wrapping the intended 404
message.  This theorem evaluates the code with the broker returning an
empty `prices` list and with the `prices` key absent. -/
theorem claim4_empty_prices_becomes_500 :
    get_current_price "EUR_USD" (BrokerOutcome.ok { prices := some [] }) =
      (some "EUR_USD", Response.detailErr 500
        "Internal error: 404: No price data found for EUR_USD") ∧
    get_current_price "EUR_USD" (BrokerOutcome.ok { prices := Option.none }) =
      (some "EUR_USD", Response.detailErr 500
        "Internal error: 404: No price data found for EUR_USD") :=
  ⟨rfl, rfl⟩

/-- Counterexample to C5 as stated: for `units = "abc"` (neither `"ALL"`
nor a parseable integer) the response status is 500, not the claimed 400 —
the `ValueError` from `int(units)` is caught by the endpoint's generic
`except Exception`, not reported as a client error. -/
theorem claim5_counterexample :
    (close_position "EUR_USD" "abc"
        (BrokerOutcome.ok () : BrokerOutcome Unit)).2.status = 500 ∧
    ¬ (close_position "EUR_USD" "abc"
        (BrokerOutcome.ok () : BrokerOutcome Unit)).2.status = 400 :=
  ⟨rfl, by decide⟩

/-- Claim C5 as amended: for `units` neither `"ALL"` nor a parseable
integer string the endpoint responds with HTTP 500 (the `ValueError` from
`int` wrapped as "Internal error: ..."), and the failure is detected before
any broker call — the broker is never invoked. -/
theorem claim5_malformed_units_500_no_broker (ρ : Type) (instr s : String)
    (br : BrokerOutcome ρ) (hne : s ≠ "ALL") (hp : pyInt s = Option.none) :
    (close_position instr s br).1 = Option.none ∧
    (close_position instr s br).2 =
      Response.detailErr 500
        ("Internal error: " ++
          ("invalid literal for int() with base 10: " ++ s)) := by
  have hcd : closeData s =
      Except.error (PyExc.otherExc
        ("invalid literal for int() with base 10: " ++ s)) := by
    unfold closeData
    rw [if_neg hne, hp]
  constructor
  · unfold close_position
    rw [runEndpoint_payload, hcd]
    rfl
  · unfold close_position
    rw [hcd]
    rfl

/-- Witness for the amended C5 at `units = "abc"`. -/
theorem claim5_witness :
    (close_position "EUR_USD" "abc"
        (BrokerOutcome.ok () : BrokerOutcome Unit)).1 = Option.none ∧
    (close_position "EUR_USD" "abc"
        (BrokerOutcome.ok () : BrokerOutcome Unit)).2 =
      Response.detailErr 500
        ("Internal error: " ++
          ("invalid literal for int() with base 10: " ++ "abc")) :=
  claim5_malformed_units_500_no_broker Unit "EUR_USD" "abc"
    (BrokerOutcome.ok ()) (by decide) rfl

/-- Claim C6.  The candles request forwards `min(count, 5000)` and the
requested granularity; `count = 999999` is forwarded as 5000; with both
query parameters omitted FastAPI fills `granularity = "D"`, `count = 100`,
which is forwarded unclamped. -/
theorem claim6_historical_count_clamped (instr g : String) (c : Int)
    (b1 b2 b3 b4 : BrokerOutcome CandlesResp) :
    (get_historical_data instr g c b1).1 =
      some { granularity := g, count := min c 5000 } ∧
    (get_historical_data instr g 999999 b2).1 =
      some { granularity := g, count := 5000 } ∧
    get_historical_data_defaults instr b3 =
      get_historical_data instr "D" 100 b3 ∧
    (get_historical_data_defaults instr b4).1 =
      some { granularity := "D", count := 100 } := by
  refine ⟨rfl, ?h999, rfl, ?hdef⟩
  · rw [show (get_historical_data instr g 999999 b2).1 =
        some { granularity := g, count := min (999999 : Int) 5000 } from rfl]
    norm_num
  · rw [show (get_historical_data_defaults instr b4).1 =
        some { granularity := "D", count := min (100 : Int) 5000 } from rfl]
    norm_num

/-- Claim C7.  `GET /health` returns HTTP 200 whatever the broker outcome;
any exception from the probe (a `V20Error` included, since the probe's bare
`except Exception` catches it too) is reported as data: an "unhealthy" body
carrying the exception's message. -/
theorem claim7_health_always_200 (ρ : Type) (aid env m : String)
    (br : BrokerOutcome ρ) :
    (health_check aid env br).status = 200 ∧
    health_check aid env (BrokerOutcome.exn m : BrokerOutcome ρ) =
      Response.ok [("status", PyVal.str "unhealthy"),
                   ("error", PyVal.str m),
                   ("oanda_connection", PyVal.str "failed")] ∧
    health_check aid env (BrokerOutcome.v20 m : BrokerOutcome ρ) =
      Response.ok [("status", PyVal.str "unhealthy"),
                   ("error", PyVal.str m),
                   ("oanda_connection", PyVal.str "failed")] := by
  refine ⟨?hstat, rfl, rfl⟩
  cases br <;> rfl

/-- Claim C2.  For every endpoint that translates broker failures — every
broker-calling endpoint except `GET /health`, which the spec deliberately
exempts (see C7) — whenever the broker call is reached, a raised
`V20Error(m)` surfaces as HTTP 400 with the broker's message embedded in
the detail, and any other exception raised by the call surfaces as
HTTP 500.  In addition the registered global handler maps any exception
escaping a handler to a 500 JSON body, so no failure reaches the caller as
an unhandled raw exception. -/
theorem claim2_error_translation (ρ : Type) (m instr units oid g : String)
    (c : Int) (reqm reql : PyDict) (odm odl : OrderData) (cd : CloseData)
    (hm : marketBody reqm = Except.ok odm)
    (hl : limitBody reql = Except.ok odl)
    (hc : closeData units = Except.ok cd) :
    ((get_account_info (BrokerOutcome.v20 m)).2 =
        Response.detailErr 400 ("Oanda API error: " ++ m)) ∧
    ((get_account_info (BrokerOutcome.exn m)).2 =
        Response.detailErr 500 ("Internal error: " ++ m)) ∧
    ((get_positions (BrokerOutcome.v20 m)).2 =
        Response.detailErr 400 ("Oanda API error: " ++ m)) ∧
    ((get_positions (BrokerOutcome.exn m)).2 =
        Response.detailErr 500 ("Internal error: " ++ m)) ∧
    ((get_orders (BrokerOutcome.v20 m)).2 =
        Response.detailErr 400 ("Oanda API error: " ++ m)) ∧
    ((get_orders (BrokerOutcome.exn m)).2 =
        Response.detailErr 500 ("Internal error: " ++ m)) ∧
    ((get_current_price instr (BrokerOutcome.v20 m)).2 =
        Response.detailErr 400 ("Oanda API error: " ++ m)) ∧
    ((get_current_price instr (BrokerOutcome.exn m)).2 =
        Response.detailErr 500 ("Internal error: " ++ m)) ∧
    ((get_historical_data instr g c (BrokerOutcome.v20 m)).2 =
        Response.detailErr 400 ("Oanda API error: " ++ m)) ∧
    ((get_historical_data instr g c (BrokerOutcome.exn m)).2 =
        Response.detailErr 500 ("Internal error: " ++ m)) ∧
    ((cancel_order oid (BrokerOutcome.v20 m : BrokerOutcome ρ)).2 =
        Response.detailErr 400 ("Oanda API error: " ++ m)) ∧
    ((cancel_order oid (BrokerOutcome.exn m : BrokerOutcome ρ)).2 =
        Response.detailErr 500 ("Internal error: " ++ m)) ∧
    ((place_market_order reqm (BrokerOutcome.v20 m : BrokerOutcome ρ)).2 =
        Response.detailErr 400 ("Oanda API error: " ++ m)) ∧
    ((place_market_order reqm (BrokerOutcome.exn m : BrokerOutcome ρ)).2 =
        Response.detailErr 500 ("Internal error: " ++ m)) ∧
    ((place_limit_order reql (BrokerOutcome.v20 m : BrokerOutcome ρ)).2 =
        Response.detailErr 400 ("Oanda API error: " ++ m)) ∧
    ((place_limit_order reql (BrokerOutcome.exn m : BrokerOutcome ρ)).2 =
        Response.detailErr 500 ("Internal error: " ++ m)) ∧
    ((close_position instr units (BrokerOutcome.v20 m : BrokerOutcome ρ)).2 =
        Response.detailErr 400 ("Oanda API error: " ++ m)) ∧
    ((close_position instr units (BrokerOutcome.exn m : BrokerOutcome ρ)).2 =
        Response.detailErr 500 ("Internal error: " ++ m)) ∧
    (∀ e : PyExc, (global_exception_handler e).status_code = 500 ∧
        (global_exception_handler e).success = false ∧
        (global_exception_handler e).error = "Internal server error" ∧
        (global_exception_handler e).detail = excStr e) := by
  have hcb : Except.map (fun cd2 => (instr, cd2)) (closeData units) =
      Except.ok (instr, cd) := by rw [hc]; rfl
  refine ⟨runEndpoint_v20 _ _ _ m rfl, runEndpoint_exn _ _ _ m rfl,
          runEndpoint_v20 _ _ _ m rfl, runEndpoint_exn _ _ _ m rfl,
          runEndpoint_v20 _ _ _ m rfl, runEndpoint_exn _ _ _ m rfl,
          runEndpoint_v20 _ _ _ m rfl, runEndpoint_exn _ _ _ m rfl,
          runEndpoint_v20 _ _ _ m rfl, runEndpoint_exn _ _ _ m rfl,
          runEndpoint_v20 _ _ _ m rfl, runEndpoint_exn _ _ _ m rfl,
          runEndpoint_v20 _ _ _ m hm, runEndpoint_exn _ _ _ m hm,
          runEndpoint_v20 _ _ _ m hl, runEndpoint_exn _ _ _ m hl,
          runEndpoint_v20 _ _ _ m hcb, runEndpoint_exn _ _ _ m hcb,
          fun e => ⟨rfl, rfl, rfl, rfl⟩⟩

/-- Witness for C2: a broker `V20Error("boom")` on `GET /account` surfaces
as a 400 embedding the message. -/
theorem claim2_witness :
    (get_account_info (BrokerOutcome.v20 "boom")).2 =
      Response.detailErr 400 ("Oanda API error: " ++ "boom") := by
  have h := claim2_error_translation Unit "boom" "EUR_USD" "ALL" "42" "D" 100
    [("instrument", PyVal.str "EUR_USD"), ("units", PyVal.int 100)]
    [("instrument", PyVal.str "EUR_USD"), ("units", PyVal.int 100),
     ("price", PyVal.str "1.1000")]
    { type := "MARKET", instrument := PyVal.str "EUR_USD", units := "100",
      price := Option.none, stopLossOnFill := Option.none,
      takeProfitOnFill := Option.none }
    { type := "LIMIT", instrument := PyVal.str "EUR_USD", units := "100",
      price := some "1.1000", stopLossOnFill := Option.none,
      takeProfitOnFill := Option.none }
    { longUnits := some "ALL", shortUnits := some "ALL" }
    rfl rfl rfl
  exact h.1

/-- Claim C8.  In both order endpoints, the broker payload's
`stopLossOnFill` / `takeProfitOnFill` keys are present exactly when the
request's `stop_loss` / `take_profit` value is present and truthy, in which
case they carry the value rendered by `str`; otherwise the key is absent
(`Option.none` — never a null placeholder). -/
theorem claim8_optional_fields (ρ : Type) (reqm reql : PyDict)
    (brm brl : BrokerOutcome ρ) (odm odl : OrderData)
    (hm : (place_market_order reqm brm).1 = some odm)
    (hl : (place_limit_order reql brl).1 = some odl) :
    (odm.stopLossOnFill = match reqm.lookup "stop_loss" with
      | Option.none => Option.none
      | some v => if pyTruthy v then some (pyStr v) else Option.none) ∧
    (odm.takeProfitOnFill = match reqm.lookup "take_profit" with
      | Option.none => Option.none
      | some v => if pyTruthy v then some (pyStr v) else Option.none) ∧
    (odl.stopLossOnFill = match reql.lookup "stop_loss" with
      | Option.none => Option.none
      | some v => if pyTruthy v then some (pyStr v) else Option.none) ∧
    (odl.takeProfitOnFill = match reql.lookup "take_profit" with
      | Option.none => Option.none
      | some v => if pyTruthy v then some (pyStr v) else Option.none) := by
  rw [place_market_order_payload] at hm
  rw [place_limit_order_payload] at hl
  have e1 := marketBody_ok _ _ (ok_of_toOption _ _ hm)
  have e2 := limitBody_ok _ _ (ok_of_toOption _ _ hl)
  subst e1
  subst e2
  refine ⟨?f1, ?f2, ?f3, ?f4⟩
  · show optPriceField reqm "stop_loss" = _
    unfold optPriceField
    cases reqm.lookup "stop_loss" <;> rfl
  · show optPriceField reqm "take_profit" = _
    unfold optPriceField
    cases reqm.lookup "take_profit" <;> rfl
  · show optPriceField reql "stop_loss" = _
    unfold optPriceField
    cases reql.lookup "stop_loss" <;> rfl
  · show optPriceField reql "take_profit" = _
    unfold optPriceField
    cases reql.lookup "take_profit" <;> rfl

/-- Witness for C8: a market order with a truthy `stop_loss` and no
`take_profit` carries exactly a `stopLossOnFill`; a limit order with a
truthy `take_profit` and no `stop_loss` carries exactly a
`takeProfitOnFill`. -/
theorem claim8_witness :
    (place_market_order
        [("instrument", PyVal.str "EUR_USD"), ("units", PyVal.int 100),
         ("stop_loss", PyVal.str "1.0950")]
        (BrokerOutcome.ok ())).1 =
      some { type := "MARKET", instrument := PyVal.str "EUR_USD",
             units := "100", price := Option.none,
             stopLossOnFill := some "1.0950",
             takeProfitOnFill := Option.none } ∧
    ({ type := "MARKET", instrument := PyVal.str "EUR_USD", units := "100",
       price := Option.none, stopLossOnFill := some "1.0950",
       takeProfitOnFill := Option.none } : OrderData).takeProfitOnFill =
      Option.none ∧
    ({ type := "LIMIT", instrument := PyVal.str "EUR_USD", units := "100",
       price := some "1.1000", stopLossOnFill := Option.none,
       takeProfitOnFill := some "1.1100" } : OrderData).stopLossOnFill =
      Option.none := by
  have h := claim8_optional_fields Unit
    [("instrument", PyVal.str "EUR_USD"), ("units", PyVal.int 100),
     ("stop_loss", PyVal.str "1.0950")]
    [("instrument", PyVal.str "EUR_USD"), ("units", PyVal.int 100),
     ("price", PyVal.str "1.1000"), ("take_profit", PyVal.str "1.1100")]
    (BrokerOutcome.ok ()) (BrokerOutcome.ok ())
    { type := "MARKET", instrument := PyVal.str "EUR_USD", units := "100",
      price := Option.none, stopLossOnFill := some "1.0950",
      takeProfitOnFill := Option.none }
    { type := "LIMIT", instrument := PyVal.str "EUR_USD", units := "100",
      price := some "1.1000", stopLossOnFill := Option.none,
      takeProfitOnFill := some "1.1100" }
    rfl rfl
  exact ⟨rfl, h.2.1, h.2.2.1⟩

/-- Claim C10.  When the required keys are present with any JSON value, the
order payload's `units` (and `price`, for limit) are the request values
coerced through `str`, the `instrument` value is forwarded unchanged, and
the `type` field is the fixed literal `"MARKET"` / `"LIMIT"`. -/
theorem claim10_str_coercion (ρ : Type) (reqm reql : PyDict)
    (brm brl : BrokerOutcome ρ) (odm odl : OrderData)
    (iv uv jv wv pv : PyVal)
    (hm : (place_market_order reqm brm).1 = some odm)
    (hmi : reqm.lookup "instrument" = some iv)
    (hmu : reqm.lookup "units" = some uv)
    (hl : (place_limit_order reql brl).1 = some odl)
    (hli : reql.lookup "instrument" = some jv)
    (hlu : reql.lookup "units" = some wv)
    (hlp : reql.lookup "price" = some pv) :
    odm.type = "MARKET" ∧ odm.instrument = iv ∧ odm.units = pyStr uv ∧
    odm.price = Option.none ∧
    odl.type = "LIMIT" ∧ odl.instrument = jv ∧ odl.units = pyStr wv ∧
    odl.price = some (pyStr pv) := by
  rw [place_market_order_payload] at hm
  rw [place_limit_order_payload] at hl
  have e1 := marketBody_ok _ _ (ok_of_toOption _ _ hm)
  have e2 := limitBody_ok _ _ (ok_of_toOption _ _ hl)
  subst e1
  subst e2
  refine ⟨rfl, ?i1, ?u1, rfl, rfl, ?i2, ?u2, ?p2⟩
  · show item reqm "instrument" = iv
    unfold item
    rw [hmi]
    rfl
  · show pyStr (item reqm "units") = pyStr uv
    unfold item
    rw [hmu]
    rfl
  · show item reql "instrument" = jv
    unfold item
    rw [hli]
    rfl
  · show pyStr (item reql "units") = pyStr wv
    unfold item
    rw [hlu]
    rfl
  · show some (pyStr (item reql "price")) = some (pyStr pv)
    unfold item
    rw [hlp]
    rfl

/-- Witness for C10: numeric JSON `units`/`price` values are coerced to
strings in the payload. -/
theorem claim10_witness :
    (place_limit_order
        [("instrument", PyVal.str "EUR_USD"), ("units", PyVal.int 100),
         ("price", PyVal.int 2)]
        (BrokerOutcome.ok ())).1 =
      some { type := "LIMIT", instrument := PyVal.str "EUR_USD",
             units := "100", price := some "2",
             stopLossOnFill := Option.none,
             takeProfitOnFill := Option.none } ∧
    ({ type := "LIMIT", instrument := PyVal.str "EUR_USD", units := "100",
       price := some "2", stopLossOnFill := Option.none,
       takeProfitOnFill := Option.none } : OrderData).units =
      pyStr (PyVal.int 100) := by
  have h := claim10_str_coercion Unit
    [("instrument", PyVal.str "EUR_USD"), ("units", PyVal.int 100)]
    [("instrument", PyVal.str "EUR_USD"), ("units", PyVal.int 100),
     ("price", PyVal.int 2)]
    (BrokerOutcome.ok ()) (BrokerOutcome.ok ())
    { type := "MARKET", instrument := PyVal.str "EUR_USD", units := "100",
      price := Option.none, stopLossOnFill := Option.none,
      takeProfitOnFill := Option.none }
    { type := "LIMIT", instrument := PyVal.str "EUR_USD", units := "100",
      price := some "2", stopLossOnFill := Option.none,
      takeProfitOnFill := Option.none }
    (PyVal.str "EUR_USD") (PyVal.int 100) (PyVal.str "EUR_USD")
    (PyVal.int 100) (PyVal.int 2)
    rfl rfl rfl rfl rfl rfl rfl
  exact ⟨rfl, h.2.2.2.2.2.2.1⟩

/-- Claim C9.  On a successful price response the `spread` field is exactly
`float(best ask) - float(best bid)` (float arithmetic embedded exactly over
`ℚ`); on the quotes bid `"1.1000"` / ask `"1.1002"` the spread equals
`0.0002` exactly in this embedding, hence within any floating-point
tolerance. -/
theorem claim9_spread_float_sub (instr : String) (resp : PricingResp)
    (row : PriceRow) (rest : List PriceRow) (b a : PriceEntry) (qa qb : ℚ)
    (hrows : resp.prices.getD [] = row :: rest)
    (hb : firstEntry row.bids = Except.ok b)
    (ha : firstEntry row.asks = Except.ok a)
    (hqa : numericPrice a = Except.ok qa)
    (hqb : numericPrice b = Except.ok qb) :
    (get_current_price instr (BrokerOutcome.ok resp)).2 =
      Response.ok { success := true,
                    data := { instrument := instr, bid := displayPrice b,
                              ask := displayPrice a, spread := qa - qb,
                              time := row.time } } ∧
    (get_current_price "EUR_USD" (BrokerOutcome.ok
        { prices := some [{ bids := some [{ price := some "1.1000" }],
                            asks := some [{ price := some "1.1002" }],
                            time := some "T" }] })).2 =
      Response.ok { success := true,
                    data := { instrument := "EUR_USD", bid := "1.1000",
                              ask := "1.1002", spread := (2 : ℚ) / 10000,
                              time := some "T" } } := by
  constructor
  · show dispatch (tryWrap (priceBody instr resp)) = _
    unfold priceBody
    simp only [hrows, hb, ha, hqa, hqb]
    rfl
  · have d1 : digitsNat ['1'] = 1 := rfl
    have d2 : digitsNat ['1', '0', '0', '2'] = 1002 := rfl
    have d0 : digitsNat ['1', '0', '0', '0'] = 1000 := rfl
    have hv : (get_current_price "EUR_USD" (BrokerOutcome.ok
        { prices := some [{ bids := some [{ price := some "1.1000" }],
                            asks := some [{ price := some "1.1002" }],
                            time := some "T" }] })).2 =
      Response.ok
        { success := true,
          data := { instrument := "EUR_USD", bid := "1.1000",
                    ask := "1.1002",
                    spread :=
                      ((digitsNat ['1'] : ℚ) +
                        (digitsNat ['1', '0', '0', '2'] : ℚ) / (10 : ℚ) ^ (4 : ℕ)) -
                      ((digitsNat ['1'] : ℚ) +
                        (digitsNat ['1', '0', '0', '0'] : ℚ) / (10 : ℚ) ^ (4 : ℕ)),
                    time := some "T" } } := rfl
    rw [hv, d1, d2, d0]
    norm_num [Response.ok.injEq, Envelope.mk.injEq, PriceData.mk.injEq]

/-- Witness for C9 at the quotes bid `"1.1000"` / ask `"1.1002"`. -/
theorem claim9_witness :
    numericPrice { price := some "1.1002" } =
      Except.ok ((digitsNat ['1'] : ℚ) +
        (digitsNat ['1', '0', '0', '2'] : ℚ) / (10 : ℚ) ^ (4 : ℕ)) ∧
    (get_current_price "EUR_USD" (BrokerOutcome.ok
        { prices := some [{ bids := some [{ price := some "1.1000" }],
                            asks := some [{ price := some "1.1002" }],
                            time := some "T" }] })).2 =
      Response.ok
        { success := true,
          data := { instrument := "EUR_USD", bid := "1.1000",
                    ask := "1.1002",
                    spread :=
                      ((digitsNat ['1'] : ℚ) +
                        (digitsNat ['1', '0', '0', '2'] : ℚ) / (10 : ℚ) ^ (4 : ℕ)) -
                      ((digitsNat ['1'] : ℚ) +
                        (digitsNat ['1', '0', '0', '0'] : ℚ) / (10 : ℚ) ^ (4 : ℕ)),
                    time := some "T" } } := by
  have h := claim9_spread_float_sub "EUR_USD"
    { prices := some [{ bids := some [{ price := some "1.1000" }],
                        asks := some [{ price := some "1.1002" }],
                        time := some "T" }] }
    { bids := some [{ price := some "1.1000" }],
      asks := some [{ price := some "1.1002" }], time := some "T" }
    [] { price := some "1.1000" } { price := some "1.1002" }
    ((digitsNat ['1'] : ℚ) +
      (digitsNat ['1', '0', '0', '2'] : ℚ) / (10 : ℚ) ^ (4 : ℕ))
    ((digitsNat ['1'] : ℚ) +
      (digitsNat ['1', '0', '0', '0'] : ℚ) / (10 : ℚ) ^ (4 : ℕ))
    rfl rfl rfl rfl rfl
  exact ⟨rfl, h.1⟩
